import Mathlib

/-
Verification of the triangulation-based face-warping and compositing engine
(mesh builder `getDelaunayTriangles`, rasterizer `warpTriangle`, compositor
entry points `morphFaceToCharacter` and `extractAndPositionFace`).

Modelling conventions:
* JS numbers are modelled as rationals (ℚ); pixel channels as naturals.
* A canvas is a `Buffer`: width, height, and a total pixel map ℤ → ℤ → Pixel.
* The rasterizer's mutation of the destination canvas is modelled as the list
  of single-pixel writes its loop performs (`warpWrites`), applied in loop
  order (`applyWrites`); `ctx.fillRect(x, y, 1, 1)` with the sampled source
  rgba colour is modelled as storing the sampled RGBA value at (x, y).
* The compositors' canvas-context calls (drawImage, clip, gradients, filters)
  are modelled as an explicit operation trace (`Op`), in source order.
-/

set_option maxHeartbeats 1000000

structure Point where
  x : ℚ
  y : ℚ
  deriving DecidableEq

structure Pixel where
  r : ℕ
  g : ℕ
  b : ℕ
  a : ℕ
  deriving DecidableEq

structure Buffer where
  width : ℕ
  height : ℕ
  data : ℤ → ℤ → Pixel

structure Triangle where
  p1 : Point
  p2 : Point
  p3 : Point
  deriving DecidableEq

structure Write where
  wx : ℤ
  wy : ℤ
  px : Pixel
  deriving DecidableEq

structure FaceRegion where
  x : ℚ
  y : ℚ
  width : ℚ
  height : ℚ
  deriving DecidableEq

/-- Mesh builder, from `getDelaunayTriangles` in the source: appends the four
canvas corner points to the landmark list, then emits a hand-authored list of
index triples (face-outline fan around the nose tip 33, two four-triangle eye
fans, a nose-bridge fan, a mouth fan with a wrap-around closing triangle). -/
def getDelaunayTriangles (points : List Point) (width height : ℚ) : List (List ℕ) :=
  let allPoints := points ++
    [⟨0, 0⟩, ⟨width - 1, 0⟩, ⟨0, height - 1⟩, ⟨width - 1, height - 1⟩]
  let faceOutline := (List.range 16).map (fun i => [i, i + 1, 33])
  let eyes := [[36, 37, 38], [36, 38, 39], [39, 38, 40], [39, 40, 41],
               [42, 43, 44], [42, 44, 45], [45, 44, 46], [45, 46, 47]]
  let nose := (List.range 3).map (fun i => [27 + i, 27 + i + 1, 33])
  let mouth := (List.range 11).map (fun i => [48 + i, 48 + i + 1, 33])
  let _ := allPoints
  faceOutline ++ eyes ++ nose ++ mouth ++ [[59, 48, 33]]

/-- Minimum of a list of rationals (JS `Math.min(...)` over a spread array);
the empty case is irrelevant to the claims proved below. -/
def minOf (l : List ℚ) : ℚ :=
  match l with
  | [] => 0
  | a :: t => t.foldl min a

/-- Maximum of a list of rationals (JS `Math.max(...)`). -/
def maxOf (l : List ℚ) : ℚ :=
  match l with
  | [] => 0
  | a :: t => t.foldl max a

def faceMinX (ps : List Point) : ℚ := minOf (ps.map Point.x)

def faceMaxX (ps : List Point) : ℚ := maxOf (ps.map Point.x)

def faceMinY (ps : List Point) : ℚ := minOf (ps.map Point.y)

def faceMaxY (ps : List Point) : ℚ := maxOf (ps.map Point.y)

/-- Landmark bounding-box width (`faceWidth` in `extractAndPositionFace`). -/
def faceW (ps : List Point) : ℚ := faceMaxX ps - faceMinX ps

/-- Landmark bounding-box height (`faceHeight` in `extractAndPositionFace`). -/
def faceH (ps : List Point) : ℚ := faceMaxY ps - faceMinY ps

/-- Fallback-mode crop padding: `padding = faceWidth * 0.3`. -/
def cropPadding (ps : List Point) : ℚ := faceW ps * (3 / 10)

/-- Unclamped crop left edge: `minX - padding`. -/
def cropLeft (ps : List Point) : ℚ := faceMinX ps - cropPadding ps

/-- Unclamped crop top edge: `minY - padding * 1.5`. -/
def cropTop (ps : List Point) : ℚ := faceMinY ps - cropPadding ps * (3 / 2)

/-- Unclamped crop width: `faceWidth + padding * 2`. -/
def cropW (ps : List Point) : ℚ := faceW ps + cropPadding ps * 2

/-- Unclamped crop height: `faceHeight + padding * 2.5`. -/
def cropH (ps : List Point) : ℚ := faceH ps + cropPadding ps * (5 / 2)

/-- Clamped crop x, `srcX = Math.max(0, minX - padding)`. -/
def srcXc (ps : List Point) : ℚ := max 0 (cropLeft ps)

/-- Clamped crop y, `srcY = Math.max(0, minY - padding * 1.5)`. -/
def srcYc (ps : List Point) : ℚ := max 0 (cropTop ps)

/-- Clamped crop width, `srcW = Math.min(img.width - srcX, faceWidth + padding * 2)`. -/
def srcWc (img : Buffer) (ps : List Point) : ℚ := min ((img.width : ℚ) - srcXc ps) (cropW ps)

/-- Clamped crop height, `srcH = Math.min(img.height - srcY, faceHeight + padding * 2.5)`. -/
def srcHc (img : Buffer) (ps : List Point) : ℚ := min ((img.height : ℚ) - srcYc ps) (cropH ps)

/-- Clip-circle center x: `centerX = faceRegion.x + faceRegion.width / 2`. -/
def regionCenterX (r : FaceRegion) : ℚ := r.x + r.width / 2

/-- Clip-circle center y: `centerY = faceRegion.y + faceRegion.height / 2`. -/
def regionCenterY (r : FaceRegion) : ℚ := r.y + r.height / 2

/-- Clip-circle radius: `radius = Math.min(faceRegion.width, faceRegion.height) / 2`. -/
def regionRadius (r : FaceRegion) : ℚ := min r.width r.height / 2

inductive CompositeMode where
  | sourceOver
  | lighter
  deriving DecidableEq

/-- Abstract canvas-context operations, one constructor per kind of context
call the two compositors perform on the output canvas. -/
inductive Op where
  | drawImage
  | save
  | restore
  | compositeOp (mode : CompositeMode)
  | filterBlur (px : ℚ)
  | clipCircle (cx cy r : ℚ)
  | shadow (blur : ℚ)
  | drawImageRect (sx sy sw sh dx dy dw dh : ℚ)
  | glowRingFill (cx cy r0 r1 : ℚ)
  deriving DecidableEq

def Op.isClipCircle : Op → Bool := fun op =>
  match op with
  | .clipCircle _ _ _ => true
  | _ => false

def Op.isGlow : Op → Bool := fun op =>
  match op with
  | .glowRingFill _ _ _ _ => true
  | _ => false

/-- Single-pixel overwrite of a buffer at integer coordinates. -/
def Buffer.setPx (b : Buffer) (x y : ℤ) (p : Pixel) : Buffer :=
  { b with data := fun i j => if i = x ∧ j = y then p else b.data i j }

/-- Apply a list of pixel writes in order (earlier writes first). -/
def applyWrites (b : Buffer) (ws : List Write) : Buffer :=
  ws.foldl (fun acc w => acc.setPx w.wx w.wy w.px) b

/-- Integer interval `[lo, hi)` as a list, the iteration space of a
`for (v = lo; v < hi; v++)` loop. -/
def intRange (lo hi : ℤ) : List ℤ :=
  (List.range (hi - lo).toNat).map (fun (i : ℕ) => lo + (i : ℤ))

/-- Rasterizer denominator, from `warpTriangle`:
`det = (p2.x-p1.x)*(p3.y-p1.y) - (p3.x-p1.x)*(p2.y-p1.y)`. -/
def detD (p1 p2 p3 : Point) : ℚ :=
  (p2.x - p1.x) * (p3.y - p1.y) - (p3.x - p1.x) * (p2.y - p1.y)

/-- Rasterizer weight `w1 = ((p2.x-p1.x)*(y-p1.y) - (p2.y-p1.y)*(x-p1.x)) / det`. -/
def baryW1 (p1 p2 p3 : Point) (x y : ℚ) : ℚ :=
  ((p2.x - p1.x) * (y - p1.y) - (p2.y - p1.y) * (x - p1.x)) / detD p1 p2 p3

/-- Rasterizer weight `w2 = ((p3.x-p2.x)*(y-p2.y) - (p3.y-p2.y)*(x-p2.x)) / det`. -/
def baryW2 (p1 p2 p3 : Point) (x y : ℚ) : ℚ :=
  ((p3.x - p2.x) * (y - p2.y) - (p3.y - p2.y) * (x - p2.x)) / detD p1 p2 p3

/-- Rasterizer weight `w0 = 1 - w1 - w2`. -/
def baryW0 (p1 p2 p3 : Point) (x y : ℚ) : ℚ :=
  1 - baryW1 p1 p2 p3 x y - baryW2 p1 p2 p3 x y

/-- Inverse-mapped source x: `srcX = w0*q1.x + w1*q2.x + w2*q3.x`. -/
def srcMapX (sT : Triangle) (w0 w1 w2 : ℚ) : ℚ :=
  w0 * sT.p1.x + w1 * sT.p2.x + w2 * sT.p3.x

/-- Inverse-mapped source y: `srcY = w0*q1.y + w1*q2.y + w2*q3.y`. -/
def srcMapY (sT : Triangle) (w0 w1 w2 : ℚ) : ℚ :=
  w0 * sT.p1.y + w1 * sT.p2.y + w2 * sT.p3.y

/-- Source x-coordinate the rasterizer maps destination pixel `(x, y)` to. -/
def srcXat (sT dT : Triangle) (x y : ℤ) : ℚ :=
  srcMapX sT (baryW0 dT.p1 dT.p2 dT.p3 (x : ℚ) (y : ℚ))
    (baryW1 dT.p1 dT.p2 dT.p3 (x : ℚ) (y : ℚ)) (baryW2 dT.p1 dT.p2 dT.p3 (x : ℚ) (y : ℚ))

/-- Source y-coordinate the rasterizer maps destination pixel `(x, y)` to. -/
def srcYat (sT dT : Triangle) (x y : ℤ) : ℚ :=
  srcMapY sT (baryW0 dT.p1 dT.p2 dT.p3 (x : ℚ) (y : ℚ))
    (baryW1 dT.p1 dT.p2 dT.p3 (x : ℚ) (y : ℚ)) (baryW2 dT.p1 dT.p2 dT.p3 (x : ℚ) (y : ℚ))

/-- Bounding-box left edge `minX = Math.floor(Math.min(x1, x2, x3))`. -/
def bbMinX (t : Triangle) : ℤ := ⌊min (min t.p1.x t.p2.x) t.p3.x⌋

/-- Bounding-box right edge `maxX = Math.ceil(Math.max(x1, x2, x3))`. -/
def bbMaxX (t : Triangle) : ℤ := ⌈max (max t.p1.x t.p2.x) t.p3.x⌉

/-- Bounding-box top edge `minY = Math.floor(Math.min(y1, y2, y3))`. -/
def bbMinY (t : Triangle) : ℤ := ⌊min (min t.p1.y t.p2.y) t.p3.y⌋

/-- Bounding-box bottom edge `maxY = Math.ceil(Math.max(y1, y2, y3))`. -/
def bbMaxY (t : Triangle) : ℤ := ⌈max (max t.p1.y t.p2.y) t.p3.y⌉

/-- In-triangle test of the rasterizer: `w0 >= 0 && w1 >= 0 && w2 >= 0`. -/
abbrev weightsNonneg (dT : Triangle) (x y : ℤ) : Prop :=
  0 ≤ baryW0 dT.p1 dT.p2 dT.p3 (x : ℚ) (y : ℚ) ∧
  0 ≤ baryW1 dT.p1 dT.p2 dT.p3 (x : ℚ) (y : ℚ) ∧
  0 ≤ baryW2 dT.p1 dT.p2 dT.p3 (x : ℚ) (y : ℚ)

/-- Source-bounds test of the rasterizer:
`srcX >= 0 && srcX < src.width - 1 && srcY >= 0 && srcY < src.height - 1`. -/
abbrev srcOK (src : Buffer) (sT dT : Triangle) (x y : ℤ) : Prop :=
  0 ≤ srcXat sT dT x y ∧ srcXat sT dT x y < (src.width : ℚ) - 1 ∧
  0 ≤ srcYat sT dT x y ∧ srcYat sT dT x y < (src.height : ℚ) - 1

/-- Membership of pixel `(x, y)` in the destination-triangle bounding box
clipped to the destination buffer, exactly the rasterizer's loop bounds
`Math.max(0, minY) <= y < Math.min(dst.height, maxY)` and likewise for x. -/
abbrev inClippedBox (dst : Buffer) (dT : Triangle) (x y : ℤ) : Prop :=
  max 0 (bbMinX dT) ≤ x ∧ x < min (dst.width : ℤ) (bbMaxX dT) ∧
  max 0 (bbMinY dT) ≤ y ∧ y < min (dst.height : ℤ) (bbMaxY dT)

/-- Loop body of `warpTriangle` at one destination pixel: the write performed
there (as a singleton list), or nothing when the in-triangle test or the
source-bounds test fails. -/
def warpAt (src : Buffer) (sT dT : Triangle) (x y : ℤ) : List Write :=
  if 0 ≤ baryW0 dT.p1 dT.p2 dT.p3 (x : ℚ) (y : ℚ) ∧
      0 ≤ baryW1 dT.p1 dT.p2 dT.p3 (x : ℚ) (y : ℚ) ∧
      0 ≤ baryW2 dT.p1 dT.p2 dT.p3 (x : ℚ) (y : ℚ) then
    if 0 ≤ srcXat sT dT x y ∧ srcXat sT dT x y < (src.width : ℚ) - 1 ∧
        0 ≤ srcYat sT dT x y ∧ srcYat sT dT x y < (src.height : ℚ) - 1 then
      [⟨x, y, src.data ⌊srcXat sT dT x y⌋ ⌊srcYat sT dT x y⌋⟩]
    else []
  else []

/-- The full list of pixel writes `warpTriangle` performs, in loop order:
empty when `|det| < 1e-10` (the degenerate-triangle early return), otherwise
the clipped bounding-box double loop over `warpAt`. -/
def warpWrites (src dst : Buffer) (sT dT : Triangle) : List Write :=
  if |detD dT.p1 dT.p2 dT.p3| < 1 / 10 ^ 10 then []
  else
    (intRange (max 0 (bbMinY dT)) (min (dst.height : ℤ) (bbMaxY dT))).flatMap (fun y =>
      (intRange (max 0 (bbMinX dT)) (min (dst.width : ℤ) (bbMaxX dT))).flatMap (fun x =>
        warpAt src sT dT x y))

/-- The rasterizer `warpTriangle(src, dst, srcTriangle, dstTriangle)`: the
destination buffer after all the loop's pixel writes. -/
def warpTriangle (src dst : Buffer) (sT dT : Triangle) : Buffer :=
  applyWrites dst (warpWrites src dst sT dT)

/-- A fresh, fully transparent canvas (`document.createElement('canvas')`). -/
def emptyBuffer (w h : ℕ) : Buffer := ⟨w, h, fun _ _ => ⟨0, 0, 0, 0⟩⟩

/-- Landmark-to-region rescaling of `morphFaceToCharacter`:
`x = charFaceX + ((p.x - userBounds.minX) / userWidth) * charFaceW` and
likewise for y. -/
def scalePointToRegion (ps : List Point) (region : FaceRegion) (p : Point) : Point :=
  ⟨region.x + ((p.x - faceMinX ps) / faceW ps) * region.width,
   region.y + ((p.y - faceMinY ps) / faceH ps) * region.height⟩

/-- Mesh-warp compositor `morphFaceToCharacter`: returns the scratch canvas
holding the accumulated triangle warps, paired with the operation trace
performed on the output canvas (draw character body; then draw the morphed
scratch canvas under a source-over composite with a 3px blur filter). -/
def morphFaceToCharacter (userFaceCanvas characterBody : Buffer)
    (landmarks : List Point) (region : FaceRegion) : Buffer × List Op :=
  let userPoints := landmarks
  let characterPoints := userPoints.map (scalePointToRegion userPoints region)
  let triangles :=
    getDelaunayTriangles userPoints (userFaceCanvas.width : ℚ) (userFaceCanvas.height : ℚ)
  let morphCanvas := emptyBuffer characterBody.width characterBody.height
  let morphed := triangles.foldl (fun mc t =>
    if t.getD 0 0 < userPoints.length ∧ t.getD 1 0 < userPoints.length ∧
        t.getD 2 0 < userPoints.length then
      warpTriangle userFaceCanvas mc
        ⟨userPoints.getD (t.getD 0 0) ⟨0, 0⟩, userPoints.getD (t.getD 1 0) ⟨0, 0⟩,
         userPoints.getD (t.getD 2 0) ⟨0, 0⟩⟩
        ⟨characterPoints.getD (t.getD 0 0) ⟨0, 0⟩, characterPoints.getD (t.getD 1 0) ⟨0, 0⟩,
         characterPoints.getD (t.getD 2 0) ⟨0, 0⟩⟩
    else mc) morphCanvas
  (morphed,
   [Op.drawImage, Op.save, Op.compositeOp CompositeMode.sourceOver,
    Op.filterBlur 3, Op.drawImage, Op.restore])

/-- Fallback compositor `extractAndPositionFace`, as the operation trace on
the output canvas: draw character body; clip to the circle inscribed in the
face region; shadow feathering; draw the padded source crop scaled into the
region; then the glow ring (radial gradient from `0.7r` to `1.2r`, filled
under the additive `lighter` composite with an 8px blur). -/
def extractAndPositionFace (userFaceImg characterBody : Buffer)
    (landmarks : List Point) (region : FaceRegion) : List Op :=
  [Op.drawImage,
   Op.save,
   Op.clipCircle (regionCenterX region) (regionCenterY region) (regionRadius region),
   Op.shadow 15,
   Op.drawImageRect (srcXc landmarks) (srcYc landmarks)
     (srcWc userFaceImg landmarks) (srcHc userFaceImg landmarks)
     region.x region.y region.width region.height,
   Op.restore,
   Op.save,
   Op.compositeOp CompositeMode.lighter,
   Op.filterBlur 8,
   Op.glowRingFill (regionCenterX region) (regionCenterY region)
     (regionRadius region * (7 / 10)) (regionRadius region * (12 / 10)),
   Op.restore]

/-- Membership in the loop iteration space `[lo, hi)`. -/
theorem mem_intRange {lo hi a : ℤ} : a ∈ intRange lo hi ↔ lo ≤ a ∧ a < hi := by
  unfold intRange
  simp only [List.mem_map, List.mem_range]
  constructor
  · rintro ⟨i, hlt, rfl⟩
    omega
  · intro h
    exact ⟨(a - lo).toNat, by omega, by omega⟩

/-- A pixel write elsewhere leaves the queried coordinate unchanged, and the
whole write list does so when no write hits the coordinate. -/
theorem applyWrites_data_of_no_hit (ws : List Write) (b : Buffer) (x y : ℤ)
    (h : ∀ w ∈ ws, ¬(w.wx = x ∧ w.wy = y)) :
    (applyWrites b ws).data x y = b.data x y := by
  induction ws generalizing b with
  | nil => rfl
  | cons w t ih =>
      have hstep : applyWrites b (w :: t) = applyWrites (b.setPx w.wx w.wy w.px) t := rfl
      rw [hstep, ih _ (fun w2 hw2 => h w2 (List.mem_cons_of_mem _ hw2))]
      have hw := h w (List.mem_cons_self _ _)
      simp only [Buffer.setPx]
      rw [if_neg]
      intro hc
      exact hw ⟨hc.1.symm, hc.2.symm⟩

/-- Characterization of the rasterizer's per-pixel write list. -/
theorem mem_warpAt {src : Buffer} {sT dT : Triangle} {x y : ℤ} {w : Write} :
    w ∈ warpAt src sT dT x y ↔
      weightsNonneg dT x y ∧ srcOK src sT dT x y ∧
        w = ⟨x, y, src.data ⌊srcXat sT dT x y⌋ ⌊srcYat sT dT x y⌋⟩ := by
  unfold warpAt
  split_ifs with h1 h2
  · simp only [List.mem_singleton]
    tauto
  · simp only [List.not_mem_nil, false_iff]
    tauto
  · simp only [List.not_mem_nil, false_iff]
    tauto

/-- Characterization of all writes of one `warpTriangle` call: a write occurs
exactly at pixels of the clipped bounding box passing the in-triangle and
source-bounds tests, with the sampled source pixel, and only when the
destination triangle is not degenerate. -/
theorem mem_warpWrites {src dst : Buffer} {sT dT : Triangle} {w : Write} :
    w ∈ warpWrites src dst sT dT ↔
      ¬ |detD dT.p1 dT.p2 dT.p3| < 1 / 10 ^ 10 ∧
      inClippedBox dst dT w.wx w.wy ∧ weightsNonneg dT w.wx w.wy ∧
      srcOK src sT dT w.wx w.wy ∧
      w.px = src.data ⌊srcXat sT dT w.wx w.wy⌋ ⌊srcYat sT dT w.wx w.wy⌋ := by
  unfold warpWrites
  split_ifs with hdet
  · simp only [List.not_mem_nil, false_iff]
    intro hc
    exact hc.1 hdet
  · simp only [List.mem_flatMap, mem_intRange, mem_warpAt]
    constructor
    · rintro ⟨y, ⟨hy1, hy2⟩, x, ⟨hx1, hx2⟩, hw, hs, rfl⟩
      exact ⟨hdet, ⟨hx1, hx2, hy1, hy2⟩, hw, hs, rfl⟩
    · rintro ⟨-, ⟨hx1, hx2, hy1, hy2⟩, hw, hs, hpx⟩
      refine ⟨w.wy, ⟨hy1, hy2⟩, w.wx, ⟨hx1, hx2⟩, hw, hs, ?_⟩
      cases w
      simp_all

/-- Claim C1 (code-bug evidence): for the destination triangle p1=(0,0),
p2=(1,0), p3=(0,1) (det = 1, far above the 1e-10 threshold), source triangle
q1=(5,0), q2=(6,0), q3=(7,0), at the destination pixel (0,0) = p1 the
rasterizer computes weights (w0,w1,w2) = (0,0,1); the claimed barycentric
identity w0*p1 + w1*p2 + w2*p3 = (x,y) fails in the y-coordinate (the
combination yields 1 while the pixel has y = 0), and the inverse mapping
sends destination vertex p1 to q3.x = 7, not to q1.x = 5. -/
theorem warp_bary_vertex_mismatch_eval :
    ¬ |detD ⟨0, 0⟩ ⟨1, 0⟩ ⟨0, 1⟩| < 1 / 10 ^ 10 ∧
    baryW0 ⟨0, 0⟩ ⟨1, 0⟩ ⟨0, 1⟩ 0 0 = 0 ∧
    baryW1 ⟨0, 0⟩ ⟨1, 0⟩ ⟨0, 1⟩ 0 0 = 0 ∧
    baryW2 ⟨0, 0⟩ ⟨1, 0⟩ ⟨0, 1⟩ 0 0 = 1 ∧
    baryW0 ⟨0, 0⟩ ⟨1, 0⟩ ⟨0, 1⟩ 0 0 * (0 : ℚ) + baryW1 ⟨0, 0⟩ ⟨1, 0⟩ ⟨0, 1⟩ 0 0 * 0 +
        baryW2 ⟨0, 0⟩ ⟨1, 0⟩ ⟨0, 1⟩ 0 0 * 1 ≠ 0 ∧
    srcXat ⟨⟨5, 0⟩, ⟨6, 0⟩, ⟨7, 0⟩⟩ ⟨⟨0, 0⟩, ⟨1, 0⟩, ⟨0, 1⟩⟩ 0 0 = 7 ∧
    srcXat ⟨⟨5, 0⟩, ⟨6, 0⟩, ⟨7, 0⟩⟩ ⟨⟨0, 0⟩, ⟨1, 0⟩, ⟨0, 1⟩⟩ 0 0 ≠ 5 := by
  refine ⟨?_, ?_, ?_, ?_, ?_, ?_, ?_⟩ <;>
    norm_num [srcXat, srcMapX, baryW0, baryW1, baryW2, detD]

/-- Claim C2 (counterexample): at a concrete input, the mesh-warp
compositor's operation trace contains neither a circular clip mask nor a
glow ring, refuting the claim that both modes apply them. -/
theorem meshMode_no_clip_no_glow_cex :
    ((morphFaceToCharacter (emptyBuffer 10 10) (emptyBuffer 20 20)
        [⟨1, 1⟩, ⟨3, 4⟩] ⟨5, 5, 8, 6⟩).2.all
      (fun op => !op.isClipCircle && !op.isGlow)) = true := rfl

/-- Claim C2 (amended): only the fallback compositor applies the circular
clip mask (centered at the face region's center, radius half the smaller
region dimension) and the additive glow ring spanning [0.7r, 1.2r] under the
`lighter` composite; the mesh-warp compositor's output trace contains
neither a clip mask nor a glow ring. -/
theorem compositor_clip_glow_only_fallback (ub cb : Buffer) (lm : List Point)
    (reg : FaceRegion) :
    Op.clipCircle (regionCenterX reg) (regionCenterY reg) (regionRadius reg) ∈
        extractAndPositionFace ub cb lm reg ∧
    Op.compositeOp CompositeMode.lighter ∈ extractAndPositionFace ub cb lm reg ∧
    Op.glowRingFill (regionCenterX reg) (regionCenterY reg)
        (regionRadius reg * (7 / 10)) (regionRadius reg * (12 / 10)) ∈
      extractAndPositionFace ub cb lm reg ∧
    ∀ op ∈ (morphFaceToCharacter ub cb lm reg).2,
      op.isClipCircle = false ∧ op.isGlow = false := by
  have h2 : (morphFaceToCharacter ub cb lm reg).2 =
      [Op.drawImage, Op.save, Op.compositeOp CompositeMode.sourceOver,
       Op.filterBlur 3, Op.drawImage, Op.restore] := rfl
  refine ⟨?_, ?_, ?_, ?_⟩
  · simp [extractAndPositionFace]
  · simp [extractAndPositionFace]
  · simp [extractAndPositionFace]
  · intro op hop
    rw [h2] at hop
    fin_cases hop <;> exact ⟨rfl, rfl⟩

/-- Claim C3 (counterexample): with a 1-point landmark list (count ≠ 68) and
a face region of width -3 ≤ 0, the mesh-warp compositor does not fail: its
very first output-canvas operation draws the character body (pixels are
written), and the full 6-operation compositing trace completes. -/
theorem morph_invalid_input_no_abort_cex :
    ([(⟨0, 0⟩ : Point)].length ≠ 68) ∧
    ((⟨0, 0, -3, 5⟩ : FaceRegion).width ≤ 0) ∧
    (morphFaceToCharacter (emptyBuffer 10 10) (emptyBuffer 20 20)
        [⟨0, 0⟩] ⟨0, 0, -3, 5⟩).2.head? = some Op.drawImage ∧
    (morphFaceToCharacter (emptyBuffer 10 10) (emptyBuffer 20 20)
        [⟨0, 0⟩] ⟨0, 0, -3, 5⟩).2.length = 6 := by
  refine ⟨by decide, by norm_num, rfl, rfl⟩

/-- Claim C3 (amended): the mesh-warp composite entry point performs no
input-shape validation: for every call with landmark count ≠ 68 or
non-positive region dimensions it does not abort — the character body is
drawn as the first output operation and the normal 6-operation compositing
trace completes (out-of-range triangle indices are merely skipped). -/
theorem morph_no_input_validation (ub cb : Buffer) (lm : List Point) (reg : FaceRegion)
    (h : lm.length ≠ 68 ∨ reg.width ≤ 0 ∨ reg.height ≤ 0) :
    (morphFaceToCharacter ub cb lm reg).2.head? = some Op.drawImage ∧
    (morphFaceToCharacter ub cb lm reg).2.length = 6 :=
  ⟨rfl, rfl⟩

/-- Witness for `morph_no_input_validation` at an empty landmark list. -/
theorem morph_no_input_validation_witness :
    (([] : List Point).length ≠ 68 ∨ (⟨0, 0, 4, 4⟩ : FaceRegion).width ≤ 0 ∨
        (⟨0, 0, 4, 4⟩ : FaceRegion).height ≤ 0) ∧
    ((morphFaceToCharacter (emptyBuffer 3 3) (emptyBuffer 5 5) [] ⟨0, 0, 4, 4⟩).2.head? =
        some Op.drawImage ∧
      (morphFaceToCharacter (emptyBuffer 3 3) (emptyBuffer 5 5) [] ⟨0, 0, 4, 4⟩).2.length = 6) :=
  ⟨Or.inl (by decide), morph_no_input_validation _ _ _ _ (Or.inl (by decide))⟩

/-- Claim C4 (counterexample): for the landmark set {(100,100), (200,200)}
(face width 100 > 0), the unclamped crop rectangle's bottom edge lies 30
below the landmark box's bottom edge — 30% of the face width, not the
claimed 75%. -/
theorem crop_bottom_padding_cex :
    0 < faceW [⟨100, 100⟩, ⟨200, 200⟩] ∧
    (cropTop [⟨100, 100⟩, ⟨200, 200⟩] + cropH [⟨100, 100⟩, ⟨200, 200⟩]) -
        faceMaxY [⟨100, 100⟩, ⟨200, 200⟩] = 30 ∧
    ¬ ((cropTop [⟨100, 100⟩, ⟨200, 200⟩] + cropH [⟨100, 100⟩, ⟨200, 200⟩]) -
          faceMaxY [⟨100, 100⟩, ⟨200, 200⟩] =
        (75 / 100) * faceW [⟨100, 100⟩, ⟨200, 200⟩]) := by
  refine ⟨?_, ?_, ?_⟩ <;>
    norm_num [cropTop, cropH, cropPadding, faceW, faceH, faceMinX, faceMaxX,
      faceMinY, faceMaxY, minOf, maxOf]

/-- Claim C4 (amended): the unclamped fallback crop rectangle extends beyond
the landmark bounding box by 30% of the face width on each horizontal side,
by 45% of the face width above the top edge, and by 30% of the face width
below the bottom edge. -/
theorem crop_padding_extents (ps : List Point) (h : 0 < faceW ps) :
    faceMinX ps - cropLeft ps = (3 / 10) * faceW ps ∧
    (cropLeft ps + cropW ps) - faceMaxX ps = (3 / 10) * faceW ps ∧
    faceMinY ps - cropTop ps = (45 / 100) * faceW ps ∧
    (cropTop ps + cropH ps) - faceMaxY ps = (3 / 10) * faceW ps := by
  unfold cropLeft cropTop cropW cropH cropPadding faceW faceH
  refine ⟨by ring, by ring, by ring, by ring⟩

/-- Witness for `crop_padding_extents`. -/
theorem crop_padding_extents_witness :
    0 < faceW [⟨100, 100⟩, ⟨200, 200⟩] ∧
    (faceMinX [⟨100, 100⟩, ⟨200, 200⟩] - cropLeft [⟨100, 100⟩, ⟨200, 200⟩] =
        (3 / 10) * faceW [⟨100, 100⟩, ⟨200, 200⟩] ∧
      (cropLeft [⟨100, 100⟩, ⟨200, 200⟩] + cropW [⟨100, 100⟩, ⟨200, 200⟩]) -
          faceMaxX [⟨100, 100⟩, ⟨200, 200⟩] = (3 / 10) * faceW [⟨100, 100⟩, ⟨200, 200⟩] ∧
      faceMinY [⟨100, 100⟩, ⟨200, 200⟩] - cropTop [⟨100, 100⟩, ⟨200, 200⟩] =
          (45 / 100) * faceW [⟨100, 100⟩, ⟨200, 200⟩] ∧
      (cropTop [⟨100, 100⟩, ⟨200, 200⟩] + cropH [⟨100, 100⟩, ⟨200, 200⟩]) -
          faceMaxY [⟨100, 100⟩, ⟨200, 200⟩] = (3 / 10) * faceW [⟨100, 100⟩, ⟨200, 200⟩]) := by
  have hW : 0 < faceW [(⟨100, 100⟩ : Point), ⟨200, 200⟩] := by
    norm_num [faceW, faceMinX, faceMaxX, minOf, maxOf]
  exact ⟨hW, crop_padding_extents _ hW⟩

/-- Claim C5: when the destination triangle's determinant satisfies
|det| < 1e-10, `warpTriangle` performs no writes at all — the destination
buffer is returned unchanged, for every source buffer and triangle. -/
theorem warpTriangle_degenerate_noop (src dst : Buffer) (sT dT : Triangle)
    (h : |detD dT.p1 dT.p2 dT.p3| < 1 / 10 ^ 10) :
    warpTriangle src dst sT dT = dst := by
  unfold warpTriangle warpWrites
  rw [if_pos h]
  rfl

/-- Witness for `warpTriangle_degenerate_noop` on a collinear triangle. -/
theorem warpTriangle_degenerate_noop_witness :
    |detD ⟨0, 0⟩ ⟨1, 1⟩ ⟨2, 2⟩| < 1 / 10 ^ 10 ∧
    warpTriangle (emptyBuffer 4 4) ⟨4, 4, fun _ _ => ⟨9, 8, 7, 6⟩⟩
        ⟨⟨0, 0⟩, ⟨1, 0⟩, ⟨0, 1⟩⟩ ⟨⟨0, 0⟩, ⟨1, 1⟩, ⟨2, 2⟩⟩ =
      ⟨4, 4, fun _ _ => ⟨9, 8, 7, 6⟩⟩ := by
  have hdet : |detD (⟨0, 0⟩ : Point) ⟨1, 1⟩ ⟨2, 2⟩| < 1 / 10 ^ 10 := by
    norm_num [detD]
  exact ⟨hdet, warpTriangle_degenerate_noop _ _ _ _ hdet⟩

/-- Claim C7 (frame effect): a destination pixel that is outside the clipped
bounding box of the destination triangle, or fails the in-triangle test, or
fails the source-bounds test, keeps its pre-call value; only pixels passing
all three conditions can change. -/
theorem warpTriangle_frame_effect (src dst : Buffer) (sT dT : Triangle) (x y : ℤ)
    (h : ¬(inClippedBox dst dT x y ∧ weightsNonneg dT x y ∧ srcOK src sT dT x y)) :
    (warpTriangle src dst sT dT).data x y = dst.data x y := by
  unfold warpTriangle
  apply applyWrites_data_of_no_hit
  intro w hwmem hc
  have hm := mem_warpWrites.mp hwmem
  rw [hc.1, hc.2] at hm
  exact h ⟨hm.2.1, hm.2.2.1, hm.2.2.2.1⟩

/-- Witness for `warpTriangle_frame_effect` at pixel (3,3), outside the
clipped bounding box of the triangle (0,0),(2,0),(0,2). -/
theorem warpTriangle_frame_effect_witness :
    ¬(inClippedBox ⟨4, 4, fun _ _ => ⟨1, 1, 1, 1⟩⟩ ⟨⟨0, 0⟩, ⟨2, 0⟩, ⟨0, 2⟩⟩ 3 3 ∧
        weightsNonneg ⟨⟨0, 0⟩, ⟨2, 0⟩, ⟨0, 2⟩⟩ 3 3 ∧
        srcOK (emptyBuffer 4 4) ⟨⟨0, 0⟩, ⟨2, 0⟩, ⟨0, 2⟩⟩ ⟨⟨0, 0⟩, ⟨2, 0⟩, ⟨0, 2⟩⟩ 3 3) ∧
    (warpTriangle (emptyBuffer 4 4) ⟨4, 4, fun _ _ => ⟨1, 1, 1, 1⟩⟩
        ⟨⟨0, 0⟩, ⟨2, 0⟩, ⟨0, 2⟩⟩ ⟨⟨0, 0⟩, ⟨2, 0⟩, ⟨0, 2⟩⟩).data 3 3 =
      (⟨4, 4, fun _ _ => ⟨1, 1, 1, 1⟩⟩ : Buffer).data 3 3 := by
  have hA : ¬ inClippedBox (⟨4, 4, fun _ _ => ⟨1, 1, 1, 1⟩⟩ : Buffer)
      ⟨⟨0, 0⟩, ⟨2, 0⟩, ⟨0, 2⟩⟩ 3 3 := by
    norm_num [bbMinX, bbMaxX, bbMinY, bbMaxY]
  exact ⟨fun hc => hA hc.1,
    warpTriangle_frame_effect (emptyBuffer 4 4) ⟨4, 4, fun _ _ => ⟨1, 1, 1, 1⟩⟩
      ⟨⟨0, 0⟩, ⟨2, 0⟩, ⟨0, 2⟩⟩ ⟨⟨0, 0⟩, ⟨2, 0⟩, ⟨0, 2⟩⟩ 3 3 (fun hc => hA hc.1)⟩

/-- Claim C8: when the destination triangle's bounding box lies entirely
outside the destination buffer bounds, `warpTriangle` performs no writes
and returns the destination buffer unchanged, for every source buffer and
source triangle. -/
theorem warpTriangle_outside_noop (src dst : Buffer) (sT dT : Triangle)
    (h : bbMaxX dT < 0 ∨ (dst.width : ℤ) ≤ bbMinX dT ∨
      bbMaxY dT < 0 ∨ (dst.height : ℤ) ≤ bbMinY dT) :
    warpTriangle src dst sT dT = dst := by
  have hempty : warpWrites src dst sT dT = [] := by
    unfold warpWrites
    split_ifs with hdet
    · rfl
    · refine List.flatMap_eq_nil_iff.mpr (fun y hy =>
        List.flatMap_eq_nil_iff.mpr (fun x hx => ?_))
      obtain ⟨hy1, hy2⟩ := mem_intRange.mp hy
      obtain ⟨hx1, hx2⟩ := mem_intRange.mp hx
      exfalso
      have c1 : (0 : ℤ) ≤ x := le_trans (le_max_left _ _) hx1
      have c2 : bbMinX dT ≤ x := le_trans (le_max_right _ _) hx1
      have c3 : x < (dst.width : ℤ) := lt_of_lt_of_le hx2 (min_le_left _ _)
      have c4 : x < bbMaxX dT := lt_of_lt_of_le hx2 (min_le_right _ _)
      have c5 : (0 : ℤ) ≤ y := le_trans (le_max_left _ _) hy1
      have c6 : bbMinY dT ≤ y := le_trans (le_max_right _ _) hy1
      have c7 : y < (dst.height : ℤ) := lt_of_lt_of_le hy2 (min_le_left _ _)
      have c8 : y < bbMaxY dT := lt_of_lt_of_le hy2 (min_le_right _ _)
      rcases h with h | h | h | h <;> omega
  unfold warpTriangle
  rw [hempty]
  rfl

/-- Witness for `warpTriangle_outside_noop`: a triangle at x,y ≥ 10 against
a 4x4 destination buffer. -/
theorem warpTriangle_outside_noop_witness :
    (bbMaxX ⟨⟨10, 10⟩, ⟨12, 10⟩, ⟨10, 12⟩⟩ < 0 ∨
      ((⟨4, 4, fun _ _ => ⟨2, 2, 2, 2⟩⟩ : Buffer).width : ℤ) ≤
        bbMinX ⟨⟨10, 10⟩, ⟨12, 10⟩, ⟨10, 12⟩⟩ ∨
      bbMaxY ⟨⟨10, 10⟩, ⟨12, 10⟩, ⟨10, 12⟩⟩ < 0 ∨
      ((⟨4, 4, fun _ _ => ⟨2, 2, 2, 2⟩⟩ : Buffer).height : ℤ) ≤
        bbMinY ⟨⟨10, 10⟩, ⟨12, 10⟩, ⟨10, 12⟩⟩) ∧
    warpTriangle (emptyBuffer 7 7) ⟨4, 4, fun _ _ => ⟨2, 2, 2, 2⟩⟩
        ⟨⟨0, 0⟩, ⟨1, 0⟩, ⟨0, 1⟩⟩ ⟨⟨10, 10⟩, ⟨12, 10⟩, ⟨10, 12⟩⟩ =
      ⟨4, 4, fun _ _ => ⟨2, 2, 2, 2⟩⟩ := by
  have hout : ((⟨4, 4, fun _ _ => ⟨2, 2, 2, 2⟩⟩ : Buffer).width : ℤ) ≤
      bbMinX ⟨⟨10, 10⟩, ⟨12, 10⟩, ⟨10, 12⟩⟩ := by
    norm_num [bbMinX]
  exact ⟨Or.inr (Or.inl hout), warpTriangle_outside_noop _ _ _ _ (Or.inr (Or.inl hout))⟩

/-- Claim C9: on equal inputs with a 68-point landmark set the mesh builder
returns equal triangle lists (it is a deterministic pure function of its
inputs), and every index in every returned triangle is strictly below 72. -/
theorem getDelaunayTriangles_det_and_bound (points points2 : List Point)
    (w h w2 h2 : ℚ) (hlen : points.length = 68)
    (hp : points = points2) (hw : w = w2) (hh : h = h2) :
    getDelaunayTriangles points w h = getDelaunayTriangles points2 w2 h2 ∧
    ∀ t ∈ getDelaunayTriangles points w h, ∀ i ∈ t, i < 72 := by
  subst hp
  subst hw
  subst hh
  refine ⟨rfl, ?_⟩
  have hconst : getDelaunayTriangles points w h = getDelaunayTriangles [] 0 0 := rfl
  rw [hconst]
  decide

/-- Witness for `getDelaunayTriangles_det_and_bound` on a 68-point list. -/
theorem getDelaunayTriangles_det_and_bound_witness :
    (List.replicate 68 (⟨0, 0⟩ : Point)).length = 68 ∧
    (getDelaunayTriangles (List.replicate 68 ⟨0, 0⟩) 5 5 =
        getDelaunayTriangles (List.replicate 68 ⟨0, 0⟩) 5 5 ∧
      ∀ t ∈ getDelaunayTriangles (List.replicate 68 ⟨0, 0⟩) 5 5, ∀ i ∈ t, i < 72) :=
  ⟨by decide, getDelaunayTriangles_det_and_bound _ _ _ _ _ _ (by decide) rfl rfl rfl⟩

/-- Claim C10 (implicit behavior): the mesh builder's output is one fixed
list of 39 index triples, independent of the point list, point count and
canvas dimensions; every index is at most 59, so the four appended corner
points (indices N..N+3) are never referenced. -/
theorem getDelaunayTriangles_constant_output (points : List Point) (w h : ℚ) :
    getDelaunayTriangles points w h = getDelaunayTriangles [] 0 0 ∧
    (getDelaunayTriangles points w h).length = 39 ∧
    ∀ t ∈ getDelaunayTriangles points w h, ∀ i ∈ t, i ≤ 59 := by
  have hconst : getDelaunayTriangles points w h = getDelaunayTriangles [] 0 0 := rfl
  refine ⟨hconst, ?_, ?_⟩
  · rw [hconst]
    decide
  · rw [hconst]
    decide
